import Mathlib

/-!
# Verification of the message_slot character-device core

Shallow embedding of `src/message_slot.c` / `src/message_slot.h`:
a registry of slots (one per minor number), each holding a linked list of
channels; each channel stores one message of at most 128 bytes.  Kernel
pointers are modelled by provenance-tagged references (minor number for a
slot, minor number plus channel id for a channel), heap allocation is
modelled as always succeeding, and the user/kernel byte transport
(`copy_from_user` / `copy_to_user`) is modelled by an explicit `copyOk`
flag (`false` = the copy faults).  `kmalloc` returns uninitialized memory,
so the freshly allocated channel's 128-byte buffer is an explicit
`garbage` parameter.
-/

set_option maxRecDepth 100000

/-- A byte value (`char`); the 0–255 range plays no role in the claims. -/
abbrev Byte := Nat

/-- `struct message_channel` from `message_slot.h`: channel id, the fixed
128-byte message buffer, and the current message length.  The `next`
pointer is represented by the position in the enclosing slot's list. -/
structure message_channel where
  channel_id : Nat
  message : List Byte
  message_len : Nat
deriving DecidableEq, Repr

/-- `struct message_slot` from `message_slot.h`: the channel list (head =
most recently created channel), the channel count, and the minor number.
The `next` pointer is represented by the position in the global list. -/
structure message_slot where
  channels : List message_channel
  channel_count : Nat
  minor : Nat
deriving DecidableEq, Repr

/-- The lookup loop of `get_or_create_channel` (lines 192–199): first
channel in the list whose `channel_id` matches. -/
def findChannel : List message_channel → Nat → Option message_channel
  | [], _ => none
  | c :: rest, id => if c.channel_id = id then some c else findChannel rest id

/-- `get_or_create_channel` (message_slot.c lines 186–224).  Looks the id
up; if absent and the count is below `1 <<< 20` it pushes a new channel at
the head of the list with `message_len = 0` and increments the count.
`kmalloc` never fails in the model; its uninitialized 128-byte buffer is
the `garbage` argument.  Returns the (possibly updated) slot together with
the found/created channel, or `none` in the channel position when the cap
is hit (the C function returns `NULL` and leaves the slot untouched). -/
def get_or_create_channel (garbage : List Byte) (slot : message_slot)
    (channel_id : Nat) : message_slot × Option message_channel :=
  match findChannel slot.channels channel_id with
  | some c => (slot, some c)
  | none =>
    if 1 <<< 20 ≤ slot.channel_count then
      (slot, none)
    else
      let new_channel : message_channel :=
        { channel_id := channel_id, message := garbage, message_len := 0 }
      ({ slot with
          channels := new_channel :: slot.channels,
          channel_count := slot.channel_count + 1 },
       some new_channel)

/-- Outcome of `device_write`, one constructor per `return` statement.
`typeConfused` marks the path where the C code dereferences
`file->private_data` that actually points to a `message_slot` as a
`message_channel *` (undefined behavior, not representable portably). -/
inductive WriteResult where
  | written (n : Nat)
  | einval
  | emsgsize
  | copyFault
  | typeConfused
deriving DecidableEq, Repr

/-- Outcome of `device_read`, one constructor per `return` statement.
`errNotSet` and `errCopyFault` are both `return -1` in the C source; the
model keeps them apart by provenance. -/
inductive ReadResult where
  | readOk (bytes : List Byte) (n : Nat)
  | errNotSet
  | ewouldblock
  | enospc
  | errCopyFault
  | typeConfused
deriving DecidableEq, Repr

/-- `copy_from_user(channel->message, buf, count)` writing `count` bytes
into the just-zeroed 128-byte buffer: the first `count` bytes of `buf`
followed by the zeros left by `memset`.  (The C reads exactly `count`
bytes of user memory; the model is only invoked with `count ≤ buf.length`.) -/
def copyIn (buf : List Byte) (count : Nat) : List Byte :=
  (buf.take count ++ List.replicate 128 0).take 128

/-- The body of `device_write` (lines 252–280) acting on the channel the
session is bound to (the `!file->private_data` guard lives in the
session-level `device_write` below).  Order as in the C source: length
check, `memset` of the whole buffer to 0, then the user copy (`copyOk =
false` models `copy_from_user` faulting, after the `memset` but before any
byte lands), then the length update. -/
def channel_write (c : message_channel) (buf : List Byte) (count : Nat)
    (copyOk : Bool) : message_channel × WriteResult :=
  if count = 0 ∨ 128 < count then
    (c, .emsgsize)
  else
    let cleared : message_channel := { c with message := List.replicate 128 0 }
    if copyOk then
      ({ cleared with message := copyIn buf count, message_len := count },
       .written count)
    else
      (cleared, .copyFault)

/-- The body of `device_read` (lines 297–324) acting on the bound channel
(the `!file->private_data` guard lives in the session-level `device_read`
below).  The C body contains no store to the channel, so the returned
channel is the argument unchanged. -/
def channel_read (c : message_channel) (count : Nat) (copyOk : Bool) :
    message_channel × ReadResult :=
  if c.message_len = 0 then
    (c, .ewouldblock)
  else if count < c.message_len then
    (c, .enospc)
  else if copyOk then
    (c, .readOk (c.message.take c.message_len) c.message_len)
  else
    (c, .errCopyFault)

/-- What `file->private_data` points to.  `device_open` stores a
`message_slot *` there; a successful `MSG_SLOT_CHANNEL` ioctl overwrites
it with a `message_channel *`.  The model tags the provenance that the C
`void *` erases. -/
inductive PrivateData where
  | null
  | slotPtr (minor : Nat)
  | channelPtr (minor : Nat) (channel_id : Nat)
deriving DecidableEq, Repr

/-- `struct file`: only `private_data` matters to the driver. -/
structure File where
  private_data : PrivateData
deriving DecidableEq, Repr

/-- The global `slots` list (message_slot.c line 64). -/
structure KernelState where
  slots : List message_slot
deriving DecidableEq, Repr

/-- The lookup loop of `device_open` (lines 73–80): first slot whose minor
matches. -/
def findSlot : List message_slot → Nat → Option message_slot
  | [], _ => none
  | s :: rest, minor => if s.minor = minor then some s else findSlot rest minor

/-- Replace the first slot with the given minor. -/
def updateSlotList : List message_slot → Nat → message_slot → List message_slot
  | [], _, _ => []
  | s :: rest, minor, s' =>
    if s.minor = minor then s' :: rest else s :: updateSlotList rest minor s'

/-- Replace the first channel with the given id. -/
def updateChannelList : List message_channel → Nat → message_channel →
    List message_channel
  | [], _, _ => []
  | c :: rest, id, c' =>
    if c.channel_id = id then c' :: rest else c :: updateChannelList rest id c'

/-- `device_open` (lines 67–104): find the slot for this minor, or append a
fresh one (`channels = NULL`, `channel_count = 0`) at the tail of the
global list, and store the slot pointer in `file->private_data`.
`kmalloc` failure is not modelled (allocation always succeeds). -/
def device_open (st : KernelState) (minor : Nat) : KernelState × File :=
  match findSlot st.slots minor with
  | some _ => (st, { private_data := .slotPtr minor })
  | none =>
    ({ slots := st.slots ++ [{ channels := [], channel_count := 0, minor := minor }] },
     { private_data := .slotPtr minor })

/-- `MSG_SLOT_CHANNEL = _IOW(235, 0, unsigned int)`:
`dir <<< 30 ||| size <<< 16 ||| type <<< 8 ||| nr` with write direction 1,
size 4, magic 235, nr 0. -/
def MSG_SLOT_CHANNEL : Nat := (1 <<< 30) + (4 <<< 16) + (235 <<< 8)

/-- Outcome of `device_ioctl`; `typeConfused` marks the path where the C
code casts a `message_channel *` held in `private_data` to
`message_slot *` (a session that already selected a channel issues a
second `MSG_SLOT_CHANNEL`). -/
inductive IoctlResult where
  | ok
  | einval
  | typeConfused
deriving DecidableEq, Repr

/-- `device_ioctl` (lines 131–159).  Rejects a wrong command number or a
zero `ioctl_param` with `-EINVAL`; then dereferences `file->private_data`
as a `message_slot *` — which it only is before the first successful
ioctl — and calls `get_or_create_channel` with
`(unsigned int)ioctl_param`, finally overwriting `private_data` with the
returned channel pointer.  The `findSlot` in the `slotPtr` branch is the
model's pointer dereference; it cannot miss for a pointer produced by
`device_open` (slots are never removed). -/
def device_ioctl (garbage : List Byte) (st : KernelState) (f : File)
    (ioctl_num : Nat) (ioctl_param : Nat) :
    KernelState × File × IoctlResult :=
  if ioctl_num ≠ MSG_SLOT_CHANNEL ∨ ioctl_param = 0 then
    (st, f, .einval)
  else
    match f.private_data with
    | .null => (st, f, .einval)
    | .channelPtr _ _ => (st, f, .typeConfused)
    | .slotPtr minor =>
      match findSlot st.slots minor with
      | none => (st, f, .einval)
      | some slot =>
        match get_or_create_channel garbage slot (ioctl_param % 2 ^ 32) with
        | (_, none) => (st, f, .einval)
        | (slot', some ch) =>
          ({ slots := updateSlotList st.slots minor slot' },
           { private_data := .channelPtr minor ch.channel_id },
           .ok)

/-- Session-level `device_write` (lines 252–280).  The C checks
`!file->private_data` (never true after a successful open), then the
length, then dereferences `private_data` as a `message_channel *`: a
freshly opened session reaches the dereference with the slot pointer —
`typeConfused`.  The `findSlot`/`findChannel` in the `channelPtr` branch
are the model's pointer dereference; they cannot miss for a pointer
produced by `device_ioctl`. -/
def device_write (st : KernelState) (f : File) (buf : List Byte)
    (count : Nat) (copyOk : Bool) : KernelState × WriteResult :=
  match f.private_data with
  | .null => (st, .einval)
  | .slotPtr _ =>
    if count = 0 ∨ 128 < count then (st, .emsgsize) else (st, .typeConfused)
  | .channelPtr minor id =>
    match findSlot st.slots minor with
    | none => (st, .einval)
    | some slot =>
      match findChannel slot.channels id with
      | none => (st, .einval)
      | some c =>
        let res := channel_write c buf count copyOk
        ({ slots := updateSlotList st.slots minor
             { slot with channels := updateChannelList slot.channels id res.1 } },
         res.2)

/-- Session-level `device_read` (lines 297–324).  The C checks
`!file->private_data` (never true after a successful open) and then
dereferences `private_data` as a `message_channel *`: a freshly opened
session reaches the dereference with the slot pointer — `typeConfused`.
The body stores nothing, so the kernel state is returned unchanged on
every path. -/
def device_read (st : KernelState) (f : File) (count : Nat) (copyOk : Bool) :
    KernelState × ReadResult :=
  match f.private_data with
  | .null => (st, .errNotSet)
  | .slotPtr _ => (st, .typeConfused)
  | .channelPtr minor id =>
    match findSlot st.slots minor with
    | none => (st, .errNotSet)
    | some slot =>
      match findChannel slot.channels id with
      | none => (st, .errNotSet)
      | some c => (st, (channel_read c count copyOk).2)

/-- Iterated channel creation: `get_or_create_channel` once per id, left to
right, aborting on the first failure. -/
def createAll (garbage : List Byte) (slot : message_slot) :
    List Nat → Option message_slot
  | [] => some slot
  | id :: rest =>
    match get_or_create_channel garbage slot id with
    | (_, none) => none
    | (slot', some _) => createAll garbage slot' rest

/-! ## Helper lemmas -/

/-- A channel found under an id carries that id. -/
theorem findChannel_eq_id {l : List message_channel} {id : Nat}
    {c : message_channel} (h : findChannel l id = some c) : c.channel_id = id := by
  induction l with
  | nil => simp [findChannel] at h
  | cons hd tl ih =>
    by_cases hhd : hd.channel_id = id
    · simp [findChannel, hhd] at h
      rw [← h]; exact hhd
    · simp [findChannel, hhd] at h
      exact ih h

/-- Replacing the first channel with a given id is transparent to a
subsequent lookup of that id (the replacement keeps the id). -/
theorem findChannel_update {l : List message_channel} {id : Nat}
    {c c' : message_channel} (h : findChannel l id = some c)
    (hid : c'.channel_id = id) :
    findChannel (updateChannelList l id c') id = some c' := by
  induction l with
  | nil => simp [findChannel] at h
  | cons hd tl ih =>
    by_cases hhd : hd.channel_id = id
    · simp [updateChannelList, hhd, findChannel, hid]
    · simp [findChannel, hhd] at h
      simp [updateChannelList, hhd, findChannel, ih h]

/-- Replacing the first slot with a given minor is transparent to a
subsequent lookup of that minor (the replacement keeps the minor). -/
theorem findSlot_update {l : List message_slot} {minor : Nat}
    {s s' : message_slot} (h : findSlot l minor = some s)
    (hm : s'.minor = minor) :
    findSlot (updateSlotList l minor s') minor = some s' := by
  induction l with
  | nil => simp [findSlot] at h
  | cons hd tl ih =>
    by_cases hhd : hd.minor = minor
    · simp [updateSlotList, hhd, findSlot, hm]
    · simp [findSlot, hhd] at h
      simp [updateSlotList, hhd, findSlot, ih h]

/-- All-zero 128-byte buffer, the post-`memset` contents. -/
def zeros128 : List Byte := List.replicate 128 0

/-- Scenario: `device_open` on minor 0 against an empty registry. -/
def openScenario : KernelState × File := device_open { slots := [] } 0

/-- Scenario: the open session of `openScenario` selects channel 7. -/
def selectScenario : KernelState × File × IoctlResult :=
  device_ioctl zeros128 openScenario.1 openScenario.2 MSG_SLOT_CHANNEL 7

/-- Scenario: the bound session of `selectScenario` writes the two bytes
`[97, 98]`. -/
def writeScenario : KernelState × WriteResult :=
  device_write selectScenario.1 selectScenario.2.1 [97, 98] 2 true

/-- A channel holding the two-byte message `[97, 98]`. -/
def twoByteChannel : message_channel :=
  { channel_id := 1, message := 97 :: 98 :: List.replicate 126 0, message_len := 2 }

/-! ## Claim theorems -/

/-- C1: the spec says a freshly opened session's `write` and `read` fail
with `ChannelNotSelected`.  On the code, `device_open` stores the slot
pointer in `file->private_data`, so the `!file->private_data` guards of
`device_write`/`device_read` never fire for a fresh session: both calls
pass the guard and dereference the slot as a `message_channel *` (type
confusion) instead of returning the `ChannelNotSelected` error. -/
theorem C1_fresh_session_not_guarded :
    (device_write openScenario.1 openScenario.2 [97] 1 true).2 =
      WriteResult.typeConfused ∧
    (device_write openScenario.1 openScenario.2 [97] 1 true).2 ≠
      WriteResult.einval ∧
    (device_read openScenario.1 openScenario.2 1 true).2 =
      ReadResult.typeConfused ∧
    (device_read openScenario.1 openScenario.2 1 true).2 ≠
      ReadResult.errNotSet := by
  decide

/-- C2: the spec says every `select-channel` calls `get_or_create_channel`
against the session's slot, so a bound session can rebind to another
channel.  On the code, the first successful ioctl overwrites
`file->private_data` with the channel pointer, and a second
`MSG_SLOT_CHANNEL` ioctl casts that `message_channel *` to
`message_slot *`: selecting channel 7 and then channel 8 ends in type
confusion rather than a rebinding. -/
theorem C2_second_select_type_confused :
    selectScenario.2.2 = IoctlResult.ok ∧
    (device_ioctl zeros128 selectScenario.1 selectScenario.2.1
        MSG_SLOT_CHANNEL 8).2.2 = IoctlResult.typeConfused := by
  decide

/-- C7: `get_or_create_channel` lookup is indeed idempotent, but the
claimed corollary — selecting the same channel twice in a row preserves
the stored message — fails on the code: after `select 7; write [97, 98]`,
a second `MSG_SLOT_CHANNEL` ioctl with id 7 finds the channel pointer in
`file->private_data`, casts it to `message_slot *` and proceeds on that
type-confused value instead of returning the bound channel. -/
theorem C7_reselect_type_confused :
    writeScenario.2 = WriteResult.written 2 ∧
    (device_ioctl zeros128 writeScenario.1 selectScenario.2.1
        MSG_SLOT_CHANNEL 7).2.2 = IoctlResult.typeConfused := by
  decide

/-- C3 counterexample: a write that fails in the byte copy does NOT leave
the previously stored message bytes unchanged.  `device_write` runs
`memset(channel->message, 0, 128)` before `copy_from_user`; when the copy
faults, the stored bytes `[97, 98, …]` have already been replaced by
zeros (while `message_len` keeps its old value). -/
theorem C3_copy_fault_clears_message :
    (channel_write twoByteChannel [99] 1 false).2 = WriteResult.copyFault ∧
    (channel_write twoByteChannel [99] 1 false).1.message ≠
      twoByteChannel.message := by
  decide

/-- C3 (amended): a write rejected by the length check leaves the channel
unchanged; a write that fails in the byte copy leaves `message_len`
unchanged but leaves the message buffer zeroed (the `memset` precedes the
copy). -/
theorem C3_failed_write_effects (c : message_channel) (buf : List Byte)
    (count : Nat) (copyOk : Bool) :
    ((channel_write c buf count copyOk).2 = WriteResult.emsgsize →
      (channel_write c buf count copyOk).1 = c) ∧
    ((channel_write c buf count copyOk).2 = WriteResult.copyFault →
      (channel_write c buf count copyOk).1.message_len = c.message_len ∧
      (channel_write c buf count copyOk).1.message = List.replicate 128 0) := by
  unfold channel_write
  by_cases hlen : count = 0 ∨ 128 < count
  · simp [hlen]
  · cases copyOk <;> simp [hlen]

/-- Witness for `C3_failed_write_effects`: a zero-length write leaves the
channel unchanged; a faulting one-byte write keeps the length 2 and zeroes
the buffer. -/
theorem C3_failed_write_effects_witness :
    ((channel_write twoByteChannel [] 0 true).1 = twoByteChannel) ∧
    ((channel_write twoByteChannel [99] 1 false).1.message_len =
        twoByteChannel.message_len ∧
      (channel_write twoByteChannel [99] 1 false).1.message =
        List.replicate 128 0) :=
  ⟨(C3_failed_write_effects twoByteChannel [] 0 true).1 (by decide),
   (C3_failed_write_effects twoByteChannel [99] 1 false).2 (by decide)⟩

/-- C8 counterexample: `get_or_create_channel(slot, 0)` does NOT fail.
On an empty slot it happily creates and returns a channel whose id is 0;
the zero-id rejection lives in `device_ioctl`, not here. -/
theorem C8_get_or_create_zero_succeeds :
    (get_or_create_channel zeros128
        { channels := [], channel_count := 0, minor := 0 } 0).2 =
      some { channel_id := 0, message := zeros128, message_len := 0 } := by
  decide

/-- C8 (amended): a zero channel id is rejected with `-EINVAL`, but by
`device_ioctl` itself before `get_or_create_channel` is ever called;
`get_or_create_channel` accepts id 0 and, when it is absent and the cap
not reached, creates a channel with id 0. -/
theorem C8_zero_rejected_in_ioctl (garbage : List Byte) (st : KernelState)
    (f : File) (num : Nat) (slot : message_slot)
    (habs : findChannel slot.channels 0 = none)
    (hcap : slot.channel_count < 1 <<< 20) :
    device_ioctl garbage st f num 0 = (st, f, IoctlResult.einval) ∧
    (get_or_create_channel garbage slot 0).2 =
      some { channel_id := 0, message := garbage, message_len := 0 } := by
  constructor
  · simp [device_ioctl]
  · have hcap' : slot.channel_count < 1048576 := by simpa using hcap
    simp [get_or_create_channel, habs, Nat.not_le.mpr hcap']

/-- Witness for `C8_zero_rejected_in_ioctl` at the empty registry and an
empty slot. -/
theorem C8_zero_rejected_in_ioctl_witness :
    device_ioctl zeros128 { slots := [] } { private_data := PrivateData.null }
        MSG_SLOT_CHANNEL 0 =
      ({ slots := [] }, { private_data := PrivateData.null },
        IoctlResult.einval) ∧
    (get_or_create_channel zeros128
        { channels := [], channel_count := 0, minor := 3 } 0).2 =
      some { channel_id := 0, message := zeros128, message_len := 0 } :=
  C8_zero_rejected_in_ioctl zeros128 { slots := [] }
    { private_data := PrivateData.null } MSG_SLOT_CHANNEL
    { channels := [], channel_count := 0, minor := 3 }
    (by decide) (by decide)

/-- C9: `device_read` contains no store: it returns the kernel state
unchanged on every path (so a second identical read returns the same
result), and the channel-level body returns the channel unchanged — the
stored message is not consumed by a read. -/
theorem C9_read_preserves_state (st : KernelState) (f : File) (cap : Nat)
    (ok : Bool) (c : message_channel) :
    (device_read st f cap ok).1 = st ∧
    device_read (device_read st f cap ok).1 f cap ok =
      device_read st f cap ok ∧
    (channel_read c cap ok).1 = c := by
  have hchan : ∀ c' : message_channel, (channel_read c' cap ok).1 = c' := by
    intro c'
    unfold channel_read
    split
    · rfl
    · split
      · rfl
      · split <;> rfl
  have hst : (device_read st f cap ok).1 = st := by
    unfold device_read
    split
    · rfl
    · rfl
    · split
      · rfl
      · split <;> rfl
  exact ⟨hst, by rw [hst], hchan c⟩

/-- A slot found under a minor carries that minor. -/
theorem findSlot_eq_minor {l : List message_slot} {minor : Nat}
    {s : message_slot} (h : findSlot l minor = some s) : s.minor = minor := by
  induction l with
  | nil => simp [findSlot] at h
  | cons hd tl ih =>
    by_cases hhd : hd.minor = minor
    · simp [findSlot, hhd] at h
      rw [← h]; exact hhd
    · simp [findSlot, hhd] at h
      exact ih h

/-- A valid-length write on a bound channel: the buffer becomes the copied
bytes over the zeroed background and the length becomes `count`. -/
theorem channel_write_ok (c : message_channel) (buf : List Byte) (count : Nat)
    (h1 : 1 ≤ count) (h2 : count ≤ 128) :
    channel_write c buf count true =
      ({ channel_id := c.channel_id, message := copyIn buf count,
         message_len := count }, WriteResult.written count) := by
  unfold channel_write
  rw [if_neg (by omega)]
  rfl

/-- The post-write buffer in closed form: the first `count` bytes of the
user buffer followed by the zeros left from the `memset`. -/
theorem copyIn_eq (buf : List Byte) (n : Nat) (h2 : n ≤ 128)
    (hbuf : n ≤ buf.length) :
    copyIn buf n = buf.take n ++ List.replicate (128 - n) 0 := by
  unfold copyIn
  rw [List.take_append_eq_append_take, List.take_take, List.take_replicate,
    List.length_take]
  have e1 : min 128 n = n := by omega
  have e2 : min n buf.length = n := by omega
  rw [e1, e2]
  have e3 : min (128 - n) 128 = 128 - n := by omega
  rw [e3]

/-- Reading back the first `m.length` bytes of the post-write buffer
recovers `m`. -/
theorem copyIn_take (m : List Byte) (h : m.length ≤ 128) :
    (copyIn m m.length).take m.length = m := by
  rw [copyIn_eq m m.length h (Nat.le_refl _), List.take_length]
  exact List.take_left m _



/-- The channel value after a successful write of `count` bytes of `buf`. -/
def writtenChannel (c : message_channel) (buf : List Byte) (count : Nat) :
    message_channel :=
  { channel_id := c.channel_id, message := copyIn buf count,
    message_len := count }

/-- The slot after its channel with the given id has been replaced by `c'`. -/
def updatedSlot (slot : message_slot) (id : Nat) (c' : message_channel) :
    message_slot :=
  { slot with channels := updateChannelList slot.channels id c' }

/-- The kernel state after the bound channel `(minor, id)` has been
replaced by `c'` inside its slot. -/
def updatedState (st : KernelState) (minor id : Nat) (slot : message_slot)
    (c' : message_channel) : KernelState :=
  { slots := updateSlotList st.slots minor (updatedSlot slot id c') }

/-- Unfolding `device_write` on a session bound to an existing channel
with a valid length and a succeeding copy. -/
theorem device_write_bound (st : KernelState) (f : File) (minor id : Nat)
    (slot : message_slot) (c : message_channel) (buf : List Byte) (count : Nat)
    (hpd : f.private_data = PrivateData.channelPtr minor id)
    (hslot : findSlot st.slots minor = some slot)
    (hchan : findChannel slot.channels id = some c)
    (h1 : 1 ≤ count) (h2 : count ≤ 128) :
    device_write st f buf count true =
      (updatedState st minor id slot (writtenChannel c buf count),
       WriteResult.written count) := by
  have hwrite := channel_write_ok c buf count h1 h2
  unfold device_write
  rw [hpd]
  simp only [hslot, hchan, hwrite]
  rfl

/-- C4: round-trip on a bound session.  Writing `m` (1 ≤ |m| ≤ 128) through
`device_write` returns `|m|`, and a subsequent `device_read` with capacity
at least `|m|` on the same session returns exactly the bytes of `m` with
count `|m|` (both user/kernel copies succeeding). -/
theorem C4_write_read_roundtrip (st : KernelState) (f : File) (minor id : Nat)
    (slot : message_slot) (c : message_channel) (m : List Byte) (cap : Nat)
    (hpd : f.private_data = PrivateData.channelPtr minor id)
    (hslot : findSlot st.slots minor = some slot)
    (hchan : findChannel slot.channels id = some c)
    (hlen1 : 1 ≤ m.length) (hlen2 : m.length ≤ 128) (hcap : m.length ≤ cap) :
    (device_write st f m m.length true).2 = WriteResult.written m.length ∧
    (device_read (device_write st f m m.length true).1 f cap true).2 =
      ReadResult.readOk m m.length := by
  have hw := device_write_bound st f minor id slot c m m.length hpd hslot hchan
    hlen1 hlen2
  refine ⟨by rw [hw], ?_⟩
  rw [hw]
  have hminor : slot.minor = minor := findSlot_eq_minor hslot
  have hcid : c.channel_id = id := findChannel_eq_id hchan
  have hs' : findSlot (updatedState st minor id slot
        (writtenChannel c m m.length)).slots minor =
      some (updatedSlot slot id (writtenChannel c m m.length)) :=
    findSlot_update hslot (by simpa [updatedSlot] using hminor)
  have hc' : findChannel (updatedSlot slot id
        (writtenChannel c m m.length)).channels id =
      some (writtenChannel c m m.length) :=
    findChannel_update hchan (by simpa [writtenChannel] using hcid)
  unfold device_read
  rw [hpd]
  simp only [hs', hc']
  unfold channel_read
  have h0 : ¬ (writtenChannel c m m.length).message_len = 0 :=
    Nat.one_le_iff_ne_zero.mp hlen1
  have hns : ¬ cap < (writtenChannel c m m.length).message_len :=
    Nat.not_lt.mpr hcap
  rw [if_neg h0, if_neg hns]
  simp only [if_pos]
  rw [show (writtenChannel c m m.length).message = copyIn m m.length from rfl,
    show (writtenChannel c m m.length).message_len = m.length from rfl,
    copyIn_take m hlen2]

/-- A slot holding one never-written channel with id 5, and that channel. -/
def freshChannel5 : message_channel :=
  { channel_id := 5, message := zeros128, message_len := 0 }

/-- A registry with one slot (minor 0) holding only `freshChannel5`. -/
def oneChannelState : KernelState :=
  { slots := [{ channels := [freshChannel5], channel_count := 1, minor := 0 }] }

/-- Witness for `C4_write_read_roundtrip`: the three-byte message
`[1, 2, 3]` round-trips through channel 5 of minor 0. -/
theorem C4_write_read_roundtrip_witness :
    (device_write oneChannelState
        { private_data := PrivateData.channelPtr 0 5 } [1, 2, 3] 3 true).2 =
      WriteResult.written 3 ∧
    (device_read (device_write oneChannelState
        { private_data := PrivateData.channelPtr 0 5 } [1, 2, 3] 3 true).1
        { private_data := PrivateData.channelPtr 0 5 } 3 true).2 =
      ReadResult.readOk [1, 2, 3] 3 :=
  C4_write_read_roundtrip oneChannelState
    { private_data := PrivateData.channelPtr 0 5 } 0 5
    { channels := [freshChannel5], channel_count := 1, minor := 0 }
    freshChannel5 [1, 2, 3] 3 rfl (by decide) (by decide) (by decide)
    (by decide) (by decide)

/-- As long as the slot's channel count (kept equal to the list length, as
`get_or_create_channel` maintains) plus the number of requested ids stays
within `1 <<< 20`, every `get_or_create_channel` in the sequence
succeeds. -/
theorem createAll_isSome (garbage : List Byte) (ids : List Nat) :
    ∀ slot : message_slot,
      slot.channel_count = slot.channels.length →
      slot.channel_count + ids.length ≤ 1 <<< 20 →
      (createAll garbage slot ids).isSome := by
  induction ids with
  | nil =>
    intro slot _ _
    simp [createAll]
  | cons id rest ih =>
    intro slot hwf hcap
    have hcap' : slot.channel_count + (rest.length + 1) ≤ 1048576 := by
      simpa [Nat.add_comm] using hcap
    unfold createAll
    cases hfind : findChannel slot.channels id with
    | some c =>
      simp only [get_or_create_channel, hfind]
      exact ih slot hwf (by simpa using Nat.le_of_succ_le (by omega))
    | none =>
      have hlt : ¬ 1 <<< 20 ≤ slot.channel_count := by
        simp only [Nat.shiftLeft_eq, Nat.one_mul]
        omega
      simp only [get_or_create_channel, hfind, if_neg hlt]
      exact ih _ (by simp [hwf]) (by simpa using (by omega :
        slot.channel_count + 1 + rest.length ≤ 1048576))

/-- C5: channel cap.  (i) Starting from any slot whose count matches its
list (e.g. a fresh slot with count 0), a sequence of ids no longer than
the remaining room under `1 <<< 20` is created/found entirely
successfully — in particular `2^20` distinct ids from an empty slot;
(ii) once the count has reached `1 <<< 20`, a further id not present in
the slot fails and returns the slot unmodified (no channel created, no
count increment); (iii) an id already present is still found at the cap,
returned with the slot unmodified. -/
theorem C5_channel_cap (garbage : List Byte) (slot : message_slot)
    (ids : List Nat) (id : Nat) (c : message_channel) :
    (slot.channel_count = slot.channels.length →
      slot.channel_count + ids.length ≤ 1 <<< 20 →
      (createAll garbage slot ids).isSome) ∧
    (1 <<< 20 ≤ slot.channel_count → findChannel slot.channels id = none →
      get_or_create_channel garbage slot id = (slot, none)) ∧
    (findChannel slot.channels id = some c →
      get_or_create_channel garbage slot id = (slot, some c)) := by
  refine ⟨createAll_isSome garbage ids slot, ?_, ?_⟩
  · intro hcap hfind
    simp only [get_or_create_channel, hfind, if_pos hcap]
  · intro hfind
    simp only [get_or_create_channel, hfind]

/-- A slot sitting exactly at the channel cap: its count is `1 <<< 20`
while it (abstractly) lists one existing channel, `freshChannel5`. -/
def capSlot : message_slot :=
  { channels := [freshChannel5], channel_count := 1 <<< 20, minor := 0 }

/-- Witness for `C5_channel_cap`: three fresh ids are created in an empty
slot; at the cap, the absent id 6 fails leaving the slot untouched while
the present id 5 is still found. -/
theorem C5_channel_cap_witness :
    (createAll zeros128 { channels := [], channel_count := 0, minor := 0 }
        [1, 2, 3]).isSome ∧
    get_or_create_channel zeros128 capSlot 6 = (capSlot, none) ∧
    get_or_create_channel zeros128 capSlot 5 = (capSlot, some freshChannel5) :=
  ⟨(C5_channel_cap zeros128 { channels := [], channel_count := 0, minor := 0 }
      [1, 2, 3] 0 freshChannel5).1 (by decide) (by decide),
   (C5_channel_cap zeros128 capSlot [] 6 freshChannel5).2.1 (by decide)
      (by decide),
   (C5_channel_cap zeros128 capSlot [] 5 freshChannel5).2.2 (by decide)⟩

/-- C6: `device_read` on a bound channel (with the invariant
`message_len ≤ |message|`, which every reachable channel satisfies):
length 0 fails with `-EWOULDBLOCK` (NoMessageAvailable); a capacity below
the stored length fails with `-ENOSPC` (DestinationTooSmall); otherwise,
with the user copy succeeding, it copies exactly `message_len` bytes and
returns that count. -/
theorem C6_read_semantics (c : message_channel) (cap : Nat)
    (hbuf : c.message_len ≤ c.message.length) :
    (c.message_len = 0 → channel_read c cap true = (c, ReadResult.ewouldblock)) ∧
    (c.message_len ≠ 0 → cap < c.message_len →
      channel_read c cap true = (c, ReadResult.enospc)) ∧
    (c.message_len ≠ 0 → c.message_len ≤ cap →
      channel_read c cap true =
        (c, ReadResult.readOk (c.message.take c.message_len) c.message_len) ∧
      (c.message.take c.message_len).length = c.message_len) := by
  refine ⟨?_, ?_, ?_⟩
  · intro h0
    simp [channel_read, h0]
  · intro h0 hlt
    simp [channel_read, h0, hlt]
  · intro h0 hle
    constructor
    · simp [channel_read, h0, Nat.not_lt.mpr hle]
    · simp [List.length_take]
      omega

/-- Witness for `C6_read_semantics`: the never-written channel 5 reads as
`-EWOULDBLOCK`; the two-byte channel reads as `-ENOSPC` at capacity 1 and
delivers its two bytes at capacity 2. -/
theorem C6_read_semantics_witness :
    channel_read freshChannel5 4 true = (freshChannel5, ReadResult.ewouldblock) ∧
    channel_read twoByteChannel 1 true = (twoByteChannel, ReadResult.enospc) ∧
    (channel_read twoByteChannel 2 true =
      (twoByteChannel, ReadResult.readOk
        (twoByteChannel.message.take twoByteChannel.message_len)
        twoByteChannel.message_len) ∧
      (twoByteChannel.message.take twoByteChannel.message_len).length =
        twoByteChannel.message_len) :=
  ⟨(C6_read_semantics freshChannel5 4 (by decide)).1 (by decide),
   (C6_read_semantics twoByteChannel 1 (by decide)).2.1 (by decide) (by decide),
   (C6_read_semantics twoByteChannel 2 (by decide)).2.2 (by decide) (by decide)⟩

/-- C10: after a successful write of `n` bytes (1 ≤ n ≤ 128) the channel's
buffer has exactly 128 bytes: indices `0 ≤ i < n` hold the written bytes
and indices `n ≤ i < 128` hold zero, because `device_write` zeroes the
whole buffer with `memset` before `copy_from_user` copies the message
in. -/
theorem C10_buffer_layout_after_write (c : message_channel) (buf : List Byte)
    (n : Nat) (h1 : 1 ≤ n) (h2 : n ≤ 128) (hbuf : n ≤ buf.length) :
    ((channel_write c buf n true).1.message).length = 128 ∧
    (∀ i, i < n →
      ((channel_write c buf n true).1.message).getD i 999 = buf.getD i 999) ∧
    (∀ i, n ≤ i → i < 128 →
      ((channel_write c buf n true).1.message).getD i 999 = 0) := by
  have hw := channel_write_ok c buf n h1 h2
  have hmsg : (channel_write c buf n true).1.message =
      buf.take n ++ List.replicate (128 - n) 0 := by
    rw [hw]
    exact copyIn_eq buf n h2 hbuf
  have htk : (buf.take n).length = n := by
    rw [List.length_take]
    omega
  refine ⟨?_, ?_, ?_⟩
  · rw [hmsg]
    simp [htk]
    omega
  · intro i hi
    rw [hmsg, List.getD_append _ _ _ i (by omega)]
    have hib : i < buf.length := by omega
    rw [List.getD_eq_getElem _ _ (by omega), List.getD_eq_getElem _ _ hib]
    exact List.getElem_take buf
  · intro i hni hi
    rw [hmsg, List.getD_append_right _ _ _ i (by omega)]
    rw [htk, List.getD_eq_getElem _ _ (by simp; omega)]
    exact List.getElem_replicate _ _

/-- Witness for `C10_buffer_layout_after_write`: writing `[5, 6, 7]` over
the two-byte channel yields a 128-byte buffer with byte 1 equal to 6 and
byte 100 equal to 0. -/
theorem C10_buffer_layout_after_write_witness :
    ((channel_write twoByteChannel [5, 6, 7] 3 true).1.message).length = 128 ∧
    ((channel_write twoByteChannel [5, 6, 7] 3 true).1.message).getD 1 999 =
      ([5, 6, 7] : List Byte).getD 1 999 ∧
    ((channel_write twoByteChannel [5, 6, 7] 3 true).1.message).getD 100 999 =
      0 :=
  ⟨(C10_buffer_layout_after_write twoByteChannel [5, 6, 7] 3 (by decide)
      (by decide) (by decide)).1,
   (C10_buffer_layout_after_write twoByteChannel [5, 6, 7] 3 (by decide)
      (by decide) (by decide)).2.1 1 (by decide),
   (C10_buffer_layout_after_write twoByteChannel [5, 6, 7] 3 (by decide)
      (by decide) (by decide)).2.2 100 (by decide) (by decide)⟩
